import Mathlib

/-!
# Verification of the PTQ PyTorch quantization facade

Shallow embedding of
`model_compression_toolkit/ptq/pytorch/quantization_facade.py`
(`pytorch_post_training_quantization`) and of the external pipeline
components it orchestrates (core runner, PTQ runner, similarity analyzer,
exporter), which live outside the given source tree and are therefore
modelled from the specification's contracts.

The facade is embedded as a pure function that, besides its result
(`Except` for fatal aborts raised through `Logger.critical`), returns the
trace of pipeline events (stage invocations, calibration batches consumed),
so that ordering and "stage never runs" claims are statements about the
trace.
-/

namespace MCT

/-! ## Data model -/

/-- A candidate precision configuration for one node: bitwidth together with
its modelled resource cost and accuracy-sensitivity estimate (spec §3, §4.4). -/
structure PrecisionCfg where
  bitwidth : Nat
  cost : Nat
  sensitivity : Nat
deriving DecidableEq, Repr

/-- Target-platform capabilities (spec §3 CapabilitySpec): whether metadata
embedding is requested, the per-node candidate precision configurations, and
the single fixed configuration used when mixed precision is disabled. -/
structure TargetPlatformCapabilities where
  add_metadata : Bool
  candidates : List (List PrecisionCfg)
  fixed_cfg : PrecisionCfg
deriving DecidableEq, Repr

/-- The input PyTorch module, abstracted to its layer structure. -/
structure Module where
  layers : List Nat
deriving DecidableEq, Repr

/-- Internal computation graph state threaded through the pipeline:
its topology plus flags recording which pipeline effects have been applied
(quantization parameters computed; parameters applied to produce genuinely
quantized weight values; statistics correction applied). -/
structure Graph where
  topology : List Nat
  paramsComputed : Bool
  weightsQuantized : Bool
  corrected : Bool
deriving DecidableEq, Repr

/-- Scheduling metadata produced by the core runner (spec §3), opaque to the
facade beyond being threaded through to metadata attachment. -/
structure SchedulingInfo where
  strategy : String
deriving DecidableEq, Repr

/-- Summary object returned to the caller at the end of a run (spec §3). -/
structure UserInformation where
  final_bitwidths : List Nat
deriving DecidableEq, Repr

/-- The exporter's output: a model instance usable by the host framework,
with or without attached metadata. -/
structure ExportedModel where
  graph : Graph
  hasMetadata : Bool
deriving DecidableEq, Repr

/-- The runtime value held in `core_config.mixed_precision_config`: either an
actual `MixedPrecisionQuantizationConfig` instance or a value of some other
type (the Python field is untyped). -/
inductive MPConfigValue where
  | mpqc (num_of_images : Nat)
  | other (tag : String)
deriving DecidableEq, Repr

/-- The `isinstance(·, MixedPrecisionQuantizationConfig)` check of the facade. -/
def MPConfigValue.isMPQC : MPConfigValue → Bool
  | .mpqc _ => true
  | .other _ => false

/-- `core_config.debug_config`: the bypass flag and the similarity-analysis
request flag. -/
structure DebugConfig where
  bypass : Bool
  analyze_similarity : Bool
deriving DecidableEq, Repr

/-- `CoreConfig` as the facade reads it: the debug configuration, whether
mixed precision is enabled, and the mixed-precision configuration value. -/
structure CoreConfig where
  debug_config : DebugConfig
  is_mixed_precision_enabled : Bool
  mixed_precision_config : MPConfigValue
deriving DecidableEq, Repr

/-- Observable pipeline events.  Stage markers record which component ran;
`batchConsumed` records one calibration batch drawn from the representative
data generator; `analyzerCompare` records the two graphs handed to the
similarity analyzer; `analyzerFailureLogged` records a diagnostic failure
that was logged instead of escalated. -/
inductive Event where
  | coreRunner
  | substitution
  | batchConsumed (b : Nat)
  | paramCalc
  | mpSearch
  | ptqRunner
  | analyzerCompare (baseline quantized : Graph)
  | analyzerFailureLogged (msg : String)
  | exporter
  | metadataAttach
deriving DecidableEq, Repr

/-- The four coarse pipeline stages of the spec's control-flow sentence. -/
inductive Stage where
  | core
  | ptq
  | similarity
  | export
deriving DecidableEq, Repr

/-- Project an event onto the coarse stage it marks (sub-events such as
individual batches map to none). -/
def stageOf : Event → Option Stage
  | .coreRunner => some .core
  | .ptqRunner => some .ptq
  | .analyzerCompare _ _ => some .similarity
  | .exporter => some .export
  | _ => none

/-- The model component of the facade's return value: either the original
module (bypass path) or the exporter's output. -/
inductive FacadeModel where
  | original (m : Module)
  | exported (m : ExportedModel)
deriving DecidableEq, Repr

/-! ## Mixed-precision bitwidth search (modelled) -/

/-- Total resource cost of a bitwidth configuration (spec §4.4: sum of
per-node resource costs). -/
def totalCost (c : List PrecisionCfg) : Nat :=
  (c.map PrecisionCfg.cost).sum

/-- Aggregate estimated sensitivity loss of a bitwidth configuration. -/
def totalSens (c : List PrecisionCfg) : Nat :=
  (c.map PrecisionCfg.sensitivity).sum

/-- All ways of choosing exactly one precision configuration per node from
the per-node candidate lists (spec §4.4: combinatorial selection, one choice
per node). -/
def choices : List (List PrecisionCfg) → List (List PrecisionCfg)
  | [] => [[]]
  | c :: rest => c.flatMap fun x => (choices rest).map (x :: ·)

/-- Deterministically pick a configuration of minimal aggregate sensitivity
from a list (none when the list is empty). -/
def pickMinSens : List (List PrecisionCfg) → Option (List PrecisionCfg)
  | [] => none
  | c :: rest =>
    match pickMinSens rest with
    | none => some c
    | some b => if totalSens c ≤ totalSens b then some c else some b

/-- Modelled from the spec: the mixed-precision bitwidth search (§4.4),
whose code is not under the given source tree.  It selects, among the
choice functions over the per-node candidates, a configuration of minimal
aggregate sensitivity among those whose total resource cost is within the
budget; when no configuration is feasible it fails with an explicit
infeasibility error.  An absent budget disables the constraint (§6). -/
def mixedPrecisionSearch (cands : List (List PrecisionCfg))
    (budget : Option Nat) : Except String (List PrecisionCfg) :=
  let all := choices cands
  let feas := match budget with
    | some b => all.filter fun c => decide (totalCost c ≤ b)
    | none => all
  match pickMinSens feas with
  | some c => Except.ok c
  | none => Except.error
      "infeasible: no bitwidth configuration satisfies the target resource utilization budget"

/-! ## Pipeline components outside the source tree (modelled) -/

/-- Modelled from the spec: `core_runner` (§4.5), whose code is not under the
given source tree.  Sequentially: adapt module to graph, run the substitution
engine, consume every batch of the representative data generator for
calibration statistics (an empty generator is a data error, §7(b)), compute
quantization parameters, and, when mixed precision is enabled, run the
bitwidth search (else the fixed configuration is applied uniformly).
Returns the emitted events together with either the parameter-annotated
graph (weights not yet quantized), the bitwidth configuration and scheduling
info, or a fatal error. -/
def core_runner (in_model : Module) (representative_data_gen : List Nat)
    (core_config : CoreConfig) (fqc : TargetPlatformCapabilities)
    (target_resource_utilization : Option Nat) :
    List Event × Except String (Graph × List PrecisionCfg × SchedulingInfo) :=
  if representative_data_gen.isEmpty then
    ([Event.coreRunner, Event.substitution],
     Except.error "empty representative dataset: statistics cannot be computed from no data")
  else
    let evs := [Event.coreRunner, Event.substitution]
      ++ representative_data_gen.map Event.batchConsumed ++ [Event.paramCalc]
    let g : Graph :=
      { topology := in_model.layers, paramsComputed := true,
        weightsQuantized := false, corrected := false }
    if core_config.is_mixed_precision_enabled then
      match mixedPrecisionSearch fqc.candidates target_resource_utilization with
      | Except.ok bw =>
          (evs ++ [Event.mpSearch], Except.ok (g, bw, ⟨"mixed-precision search"⟩))
      | Except.error e => (evs ++ [Event.mpSearch], Except.error e)
    else
      (evs, Except.ok (g, g.topology.map (fun _ => fqc.fixed_cfg), ⟨"fixed bitwidth"⟩))

/-- Modelled from the spec: `ptq_runner` (§4.6), whose code is not under the
given source tree.  Replays the representative data and applies
statistics/bias correction: topology and chosen parameters are unchanged,
only numeric correction is applied. -/
def ptq_runner (tg : Graph) (representative_data_gen : List Nat)
    (_core_config : CoreConfig) : Graph × List Event :=
  ({ tg with corrected := true },
   Event.ptqRunner :: representative_data_gen.map Event.batchConsumed)

/-- In the pure embedding a deep copy yields an equal, independently owned
value; with value semantics this is the value itself (`copy.deepcopy`). -/
def deepcopy (g : Graph) : Graph := g

/-- Modelled from the spec: `quantize_graph_weights`, whose code is not under
the given source tree.  Applies all quantization parameters to produce
genuinely quantized weight values (§4.7), preserving the graph structure. -/
def quantize_graph_weights (g : Graph) : Graph :=
  { g with weightsQuantized := true }

/-- The behavior of the similarity diagnostic on a given pair of graphs:
it either succeeds or fails with a message.  The facade is parametric in
this oracle so that claims can quantify over diagnostic failures. -/
def AnalyzerOracle : Type := Graph → Graph → Except String Unit

/-- Modelled from the spec: `analyzer_model_quantization` (§4.7, §7(d)),
whose code is not under the given source tree.  Purely diagnostic: it
compares the two graphs; a failure is logged/reported, never escalated to
abort the main pipeline.  Returns only events. -/
def analyzer_model_quantization (oracle : AnalyzerOracle)
    (baseline quantized : Graph) : List Event :=
  Event.analyzerCompare baseline quantized ::
    (match oracle baseline quantized with
     | Except.ok _ => []
     | Except.error msg => [Event.analyzerFailureLogged msg])

/-- Modelled from the spec: `get_exportable_pytorch_model` (§6 exporter
boundary), whose code is not under the given source tree.  Returns a model
instance usable by the host framework together with the `UserInformation`
summary object produced at the end of the run (§3). -/
def get_exportable_pytorch_model (g : Graph) : ExportedModel × UserInformation :=
  ({ graph := g, hasMetadata := false }, { final_bitwidths := g.topology })

/-- Modelled from the spec: `add_metadata` (§6), whose code is not under the
given source tree.  Attaches quantization/scheduling metadata to the
exported model. -/
def add_metadata (m : ExportedModel) (_fqc : TargetPlatformCapabilities)
    (_scheduling_info : SchedulingInfo) : ExportedModel :=
  { m with hasMetadata := true }

/-- Modelled from the spec: `load_target_platform_capabilities` resolves an
in-memory capabilities object to itself (resolution of external identifiers
is out of scope, §6). -/
def load_target_platform_capabilities (t : TargetPlatformCapabilities) :
    TargetPlatformCapabilities := t

/-- Modelled from the spec: `AttachTpcToPytorch.attach` attaches the
platform capabilities to the framework; the capability content relevant to
the facade (metadata flag, candidates) is preserved unchanged. -/
def attach_tpc_to_pytorch (t : TargetPlatformCapabilities) :
    TargetPlatformCapabilities := t

/-! ## The facade (translated from the source) -/

/-- The descriptive message of the fatal mixed-precision configuration type
error (facade lines 108-111). -/
def MSG_MP_TYPE : String :=
  "Given quantization config to mixed-precision facade is not of type MixedPrecisionQuantizationConfig. Please use pytorch_post_training_quantization API, or pass a valid mixed precision configuration."

/-- The fatal message raised when torch is missing (facade lines 165-166). -/
def MSG_NO_TORCH : String :=
  "PyTorch must be installed to use a quantization function. The torch package is missing."

/-- `pytorch_post_training_quantization` (facade lines 103-158), in the
torch-present branch.  `Logger.critical` aborts the run fatally, embedded as
`Except.error`.  Returns the event trace together with the result. -/
def pytorch_post_training_quantization (in_module : Module)
    (representative_data_gen : List Nat)
    (target_resource_utilization : Option Nat)
    (core_config : CoreConfig)
    (target_platform_capabilities : TargetPlatformCapabilities)
    (oracle : AnalyzerOracle) :
    List Event × Except String (FacadeModel × Option UserInformation) :=
  if core_config.debug_config.bypass then
    ([], Except.ok (FacadeModel.original in_module, none))
  else if core_config.is_mixed_precision_enabled
          && !core_config.mixed_precision_config.isMPQC then
    ([], Except.error MSG_MP_TYPE)
  else
    let fqc := attach_tpc_to_pytorch
      (load_target_platform_capabilities target_platform_capabilities)
    match core_runner in_module representative_data_gen core_config fqc
        target_resource_utilization with
    | (ev₁, Except.error e) => (ev₁, Except.error e)
    | (ev₁, Except.ok (tg, _bit_widths_config, scheduling_info)) =>
      let similarity_baseline_graph := deepcopy tg
      let pr := ptq_runner tg representative_data_gen core_config
      let graph_with_stats_correction := pr.1
      let evSim :=
        if core_config.debug_config.analyze_similarity then
          analyzer_model_quantization oracle similarity_baseline_graph
            (quantize_graph_weights graph_with_stats_correction)
        else []
      let em := get_exportable_pytorch_model graph_with_stats_correction
      let exportable_model :=
        if fqc.add_metadata then add_metadata em.1 fqc scheduling_info else em.1
      let evMeta := if fqc.add_metadata then [Event.metadataAttach] else []
      (ev₁ ++ pr.2 ++ evSim ++ [Event.exporter] ++ evMeta,
       Except.ok (FacadeModel.exported exportable_model, some em.2))

/-- The module-level conditional definition (facade lines 36 and 161-166):
when torch is found the real facade is bound; otherwise calling the bound
function fails fatally at once. -/
def pytorch_post_training_quantization_entry (found_torch : Bool)
    (in_module : Module) (representative_data_gen : List Nat)
    (target_resource_utilization : Option Nat)
    (core_config : CoreConfig)
    (target_platform_capabilities : TargetPlatformCapabilities)
    (oracle : AnalyzerOracle) :
    List Event × Except String (FacadeModel × Option UserInformation) :=
  if found_torch then
    pytorch_post_training_quantization in_module representative_data_gen
      target_resource_utilization core_config target_platform_capabilities oracle
  else
    ([], Except.error MSG_NO_TORCH)

/-- The bound entry point, as importing the module produces it. -/
structure EntryPoint where
  run : Module → List Nat → Option Nat → CoreConfig →
    TargetPlatformCapabilities → AnalyzerOracle →
    List Event × Except String (FacadeModel × Option UserInformation)

/-- Importing the facade module: both branches of the `if FOUND_TORCH`
module body only define a function, so the import itself succeeds for
either value of the flag. -/
def import_quantization_facade (found_torch : Bool) : Except String EntryPoint :=
  Except.ok ⟨pytorch_post_training_quantization_entry found_torch⟩

/-! ## Concrete fixtures for witnesses -/

/-- A concrete two-layer module. -/
def mod1 : Module := { layers := [0, 1] }

/-- An 8-bit candidate configuration. -/
def pc8 : PrecisionCfg := { bitwidth := 8, cost := 5, sensitivity := 1 }

/-- A 4-bit candidate configuration. -/
def pc4 : PrecisionCfg := { bitwidth := 4, cost := 3, sensitivity := 2 }

/-- Capabilities without metadata embedding, one node with two candidates. -/
def tpc1 : TargetPlatformCapabilities :=
  { add_metadata := false, candidates := [[pc8, pc4]], fixed_cfg := pc8 }

/-- Capabilities that request metadata embedding. -/
def tpcMeta : TargetPlatformCapabilities :=
  { add_metadata := true, candidates := [[pc8, pc4]], fixed_cfg := pc8 }

/-- An always-succeeding similarity diagnostic. -/
def oracleOk : AnalyzerOracle := fun _ _ => Except.ok ()

/-- A similarity diagnostic failing with a fixed message. -/
def failingOracle (msg : String) : AnalyzerOracle := fun _ _ => Except.error msg

/-- Configuration with bypass set (and an otherwise arbitrary rest). -/
def cfgBypass : CoreConfig :=
  { debug_config := { bypass := true, analyze_similarity := false },
    is_mixed_precision_enabled := false, mixed_precision_config := .mpqc 32 }

/-- Bypass together with mixed precision enabled on a wrong-typed value. -/
def cfgBypassBad : CoreConfig :=
  { debug_config := { bypass := true, analyze_similarity := false },
    is_mixed_precision_enabled := true,
    mixed_precision_config := .other "QuantizationConfig" }

/-- A plain non-bypass run without similarity analysis or mixed precision. -/
def cfgPlain : CoreConfig :=
  { debug_config := { bypass := false, analyze_similarity := false },
    is_mixed_precision_enabled := false, mixed_precision_config := .mpqc 32 }

/-- A non-bypass run requesting similarity analysis. -/
def cfgSim : CoreConfig :=
  { debug_config := { bypass := false, analyze_similarity := true },
    is_mixed_precision_enabled := false, mixed_precision_config := .mpqc 32 }

/-- A non-bypass mixed-precision run with a well-typed configuration. -/
def cfgMP : CoreConfig :=
  { debug_config := { bypass := false, analyze_similarity := false },
    is_mixed_precision_enabled := true, mixed_precision_config := .mpqc 32 }

/-- A non-bypass mixed-precision run with a wrong-typed configuration. -/
def cfgMPBad : CoreConfig :=
  { debug_config := { bypass := false, analyze_similarity := false },
    is_mixed_precision_enabled := true,
    mixed_precision_config := .other "QuantizationConfig" }

/-- The exported model produced by a completed non-bypass run on `mod1`
without metadata embedding. -/
def quantResultModel : ExportedModel :=
  { graph := { topology := [0, 1], paramsComputed := true,
               weightsQuantized := false, corrected := true },
    hasMetadata := false }

/-- The same exported model with metadata attached. -/
def quantResultModelMeta : ExportedModel :=
  { quantResultModel with hasMetadata := true }

/-- The user information produced by the exporter on `mod1`. -/
def ui1 : UserInformation := { final_bitwidths := [0, 1] }

/-- The graph the core runner produces on `mod1` before correction. -/
def tgSim : Graph :=
  { topology := [0, 1], paramsComputed := true,
    weightsQuantized := false, corrected := false }

/-- The uniform fixed bitwidth configuration for `mod1` under `tpc1`. -/
def bwFixed : List PrecisionCfg := [pc8, pc8]

/-- The scheduling info of a fixed-bitwidth run. -/
def siFixed : SchedulingInfo := { strategy := "fixed bitwidth" }

/-! ## Helper lemmas -/

theorem pickMinSens_mem {l : List (List PrecisionCfg)} {c : List PrecisionCfg}
    (h : pickMinSens l = some c) : c ∈ l := by
  induction l with
  | nil => simp [pickMinSens] at h
  | cons a rest ih =>
    unfold pickMinSens at h
    cases hr : pickMinSens rest with
    | none => rw [hr] at h; simp at h; simp [h]
    | some b =>
      rw [hr] at h
      by_cases hs : totalSens a ≤ totalSens b
      · simp [hs] at h; simp [h]
      · simp [hs] at h
        subst h
        exact List.mem_cons_of_mem _ (ih hr)

theorem mixedPrecisionSearch_ok_cost {cands : List (List PrecisionCfg)}
    {b : Nat} {c : List PrecisionCfg}
    (h : mixedPrecisionSearch cands (some b) = Except.ok c) :
    totalCost c ≤ b := by
  unfold mixedPrecisionSearch at h
  simp only at h
  cases hp : pickMinSens ((choices cands).filter fun c => decide (totalCost c ≤ b)) with
  | none => rw [hp] at h; simp at h
  | some c' =>
    rw [hp] at h
    simp at h
    subst h
    have hmem := pickMinSens_mem hp
    have := List.of_mem_filter hmem
    exact of_decide_eq_true this

theorem filter_eq_nil_of_all_false {p : List PrecisionCfg → Bool}
    {l : List (List PrecisionCfg)} (h : ∀ c ∈ l, p c = false) :
    l.filter p = [] := by
  induction l with
  | nil => rfl
  | cons a rest ih =>
    have ha := h a (List.mem_cons_self a rest)
    simp only [List.filter, ha]
    exact ih fun c hc => h c (List.mem_cons_of_mem _ hc)

theorem mixedPrecisionSearch_infeasible {cands : List (List PrecisionCfg)}
    {b : Nat} (h : ∀ c ∈ choices cands, b < totalCost c) :
    ∃ e, mixedPrecisionSearch cands (some b) = Except.error e := by
  unfold mixedPrecisionSearch
  simp only
  have hnil : ((choices cands).filter fun c => decide (totalCost c ≤ b)) = [] := by
    apply filter_eq_nil_of_all_false
    intro c hc
    simp [decide_eq_false_iff_not]
    exact h c hc
  rw [hnil]
  exact ⟨_, rfl⟩

theorem stage_of_batches (gen : List Nat) :
    (gen.map Event.batchConsumed).filterMap stageOf = [] := by
  induction gen with
  | nil => rfl
  | cons a rest ih => simp [stageOf, ih]

theorem stage_of_batches_comp (gen : List Nat) :
    List.filterMap (stageOf ∘ Event.batchConsumed) gen = [] := by
  induction gen with
  | nil => rfl
  | cons a rest ih =>
    rw [List.filterMap_cons]
    simp only [Function.comp_apply, stageOf]
    exact ih

theorem count_exporter_batches (gen : List Nat) :
    (gen.map Event.batchConsumed).count Event.exporter = 0 := by
  induction gen with
  | nil => rfl
  | cons a rest ih => simp [List.count_cons, ih]

theorem core_runner_events_stage (in_model : Module) (gen : List Nat)
    (cfg : CoreConfig) (fqc : TargetPlatformCapabilities) (ru : Option Nat) :
    ((core_runner in_model gen cfg fqc ru).1).filterMap stageOf = [Stage.core]
    ∧ ((core_runner in_model gen cfg fqc ru).1).count Event.exporter = 0 := by
  unfold core_runner
  by_cases hg : gen.isEmpty
  · simp [hg, stageOf, List.count_cons]
  · by_cases hmp : cfg.is_mixed_precision_enabled
    · simp only [hg, hmp, if_false, if_true, Bool.false_eq_true]
      cases mixedPrecisionSearch fqc.candidates ru with
      | ok bw =>
        simp [stageOf, stage_of_batches, stage_of_batches_comp,
          List.count_append, List.count_cons, count_exporter_batches]
      | error e =>
        simp [stageOf, stage_of_batches, stage_of_batches_comp,
          List.count_append, List.count_cons, count_exporter_batches]
    · simp [hg, hmp, stageOf, stage_of_batches, stage_of_batches_comp,
        List.count_append, List.count_cons, count_exporter_batches]

theorem ptq_events_stageOf (tg : Graph) (gen : List Nat) (cfg : CoreConfig) :
    ((ptq_runner tg gen cfg).2).filterMap stageOf = [Stage.ptq] := by
  show (Event.ptqRunner :: gen.map Event.batchConsumed).filterMap stageOf
    = [Stage.ptq]
  rw [List.filterMap_cons]
  simp only [stageOf]
  rw [stage_of_batches]

theorem ptq_events_count (tg : Graph) (gen : List Nat) (cfg : CoreConfig) :
    ((ptq_runner tg gen cfg).2).count Event.exporter = 0 := by
  show (Event.ptqRunner :: gen.map Event.batchConsumed).count Event.exporter = 0
  rw [List.count_cons, count_exporter_batches]
  rfl

theorem core_runner_ok_graph {in_model : Module} {gen : List Nat}
    {cfg : CoreConfig} {fqc : TargetPlatformCapabilities} {ru : Option Nat}
    {tg : Graph} {bw : List PrecisionCfg} {si : SchedulingInfo}
    (h : (core_runner in_model gen cfg fqc ru).2 = Except.ok (tg, bw, si)) :
    tg = { topology := in_model.layers, paramsComputed := true,
           weightsQuantized := false, corrected := false } := by
  unfold core_runner at h
  by_cases hg : gen.isEmpty
  · simp [hg] at h
  · by_cases hmp : cfg.is_mixed_precision_enabled
    · simp only [hg, hmp, if_false, if_true, Bool.false_eq_true] at h
      cases hs : mixedPrecisionSearch fqc.candidates ru with
      | ok bw' => rw [hs] at h; simp at h; exact h.1.symm
      | error e => rw [hs] at h; simp at h
    · simp [hg, hmp] at h
      exact h.1.symm

theorem analyzer_events_stageOf (oracle : AnalyzerOracle) (b q : Graph) :
    (analyzer_model_quantization oracle b q).filterMap stageOf
      = [Stage.similarity] := by
  unfold analyzer_model_quantization
  cases oracle b q with
  | ok u => simp [stageOf]
  | error msg => simp [stageOf]

theorem analyzer_events_count (oracle : AnalyzerOracle) (b q : Graph) :
    (analyzer_model_quantization oracle b q).count Event.exporter = 0 := by
  unfold analyzer_model_quantization
  cases oracle b q with
  | ok u => simp [List.count_cons]
  | error msg => simp [List.count_cons]

/-- Unfolding of the facade on the non-bypass, well-typed-configuration path:
the run is determined by the core runner's outcome. -/
theorem facade_nonbypass (in_module : Module) (gen : List Nat) (ru : Option Nat)
    (cfg : CoreConfig) (tpc : TargetPlatformCapabilities) (oracle : AnalyzerOracle)
    (hby : cfg.debug_config.bypass = false)
    (hty : (cfg.is_mixed_precision_enabled && !cfg.mixed_precision_config.isMPQC) = false) :
    pytorch_post_training_quantization in_module gen ru cfg tpc oracle =
      match core_runner in_module gen cfg tpc ru with
      | (ev₁, Except.error e) => (ev₁, Except.error e)
      | (ev₁, Except.ok (tg, _bw, si)) =>
        (ev₁ ++ (ptq_runner tg gen cfg).2
           ++ (if cfg.debug_config.analyze_similarity then
                 analyzer_model_quantization oracle (deepcopy tg)
                   (quantize_graph_weights (ptq_runner tg gen cfg).1)
               else [])
           ++ [Event.exporter]
           ++ (if tpc.add_metadata then [Event.metadataAttach] else []),
         Except.ok (FacadeModel.exported
             (if tpc.add_metadata then
                add_metadata (get_exportable_pytorch_model (ptq_runner tg gen cfg).1).1 tpc si
              else (get_exportable_pytorch_model (ptq_runner tg gen cfg).1).1),
           some (get_exportable_pytorch_model (ptq_runner tg gen cfg).1).2)) := by
  unfold pytorch_post_training_quantization
  rw [hby, hty]
  simp only [Bool.false_eq_true, if_false]
  rfl

/-- C1: with the bypass flag set, the facade returns the original module and
no user information, with an empty event trace: zero calibration batches and
no substitution, calibration, parameter computation, correction or export. -/
theorem bypass_short_circuits (in_module : Module) (gen : List Nat)
    (ru : Option Nat) (cfg : CoreConfig) (tpc : TargetPlatformCapabilities)
    (oracle : AnalyzerOracle)
    (h : cfg.debug_config.bypass = true) :
    pytorch_post_training_quantization in_module gen ru cfg tpc oracle
      = ([], Except.ok (FacadeModel.original in_module, none)) := by
  unfold pytorch_post_training_quantization
  rw [h]
  rfl

/-- Witness for C1 at a concrete bypass configuration. -/
theorem bypass_short_circuits_witness :
    cfgBypass.debug_config.bypass = true ∧
    pytorch_post_training_quantization mod1 [1, 2] none cfgBypass tpc1 oracleOk
      = ([], Except.ok (FacadeModel.original mod1, none)) :=
  ⟨rfl, bypass_short_circuits mod1 [1, 2] none cfgBypass tpc1 oracleOk rfl⟩

/-- C3: a non-bypass run with mixed precision enabled on a value that is not
a `MixedPrecisionQuantizationConfig` aborts fatally with the descriptive
type-error message, with an empty event trace — so before any calibration
work — and returns no partial graph or model. -/
theorem mp_wrong_type_fatal (in_module : Module) (gen : List Nat)
    (ru : Option Nat) (cfg : CoreConfig) (tpc : TargetPlatformCapabilities)
    (oracle : AnalyzerOracle)
    (hby : cfg.debug_config.bypass = false)
    (hmp : cfg.is_mixed_precision_enabled = true)
    (hty : cfg.mixed_precision_config.isMPQC = false) :
    pytorch_post_training_quantization in_module gen ru cfg tpc oracle
      = ([], Except.error MSG_MP_TYPE) := by
  unfold pytorch_post_training_quantization
  rw [hby, hmp, hty]
  rfl

/-- Witness for C3 at a concrete wrong-typed mixed-precision configuration. -/
theorem mp_wrong_type_fatal_witness :
    cfgMPBad.debug_config.bypass = false ∧
    cfgMPBad.is_mixed_precision_enabled = true ∧
    cfgMPBad.mixed_precision_config.isMPQC = false ∧
    pytorch_post_training_quantization mod1 [1, 2] none cfgMPBad tpc1 oracleOk
      = ([], Except.error MSG_MP_TYPE) :=
  ⟨rfl, rfl, rfl,
   mp_wrong_type_fatal mod1 [1, 2] none cfgMPBad tpc1 oracleOk rfl rfl rfl⟩

/-- C6: when torch is absent, every call of the bound entry point fails
fatally at once with the clear missing-package message for any arguments,
while importing the facade module itself succeeds for either value of the
availability flag (both branches of the module body only define a function). -/
theorem no_torch_fatal_on_call_import_succeeds :
    (∀ (m : Module) (gen : List Nat) (ru : Option Nat) (cfg : CoreConfig)
       (tpc : TargetPlatformCapabilities) (oracle : AnalyzerOracle),
       pytorch_post_training_quantization_entry false m gen ru cfg tpc oracle
         = ([], Except.error MSG_NO_TORCH))
    ∧ ∀ found_torch : Bool,
        ∃ ep, import_quantization_facade found_torch = Except.ok ep := by
  constructor
  · intro m gen ru cfg tpc oracle
    rfl
  · intro found_torch
    exact ⟨_, rfl⟩

/-- C9: the bypass check precedes configuration validation — with bypass set
and mixed precision enabled on a wrong-typed configuration value, the run
still returns the original module and no user information, and the type
error is never raised. -/
theorem bypass_precedes_validation (in_module : Module) (gen : List Nat)
    (ru : Option Nat) (cfg : CoreConfig) (tpc : TargetPlatformCapabilities)
    (oracle : AnalyzerOracle)
    (hby : cfg.debug_config.bypass = true)
    (hmp : cfg.is_mixed_precision_enabled = true)
    (hty : cfg.mixed_precision_config.isMPQC = false) :
    pytorch_post_training_quantization in_module gen ru cfg tpc oracle
      = ([], Except.ok (FacadeModel.original in_module, none)) := by
  unfold pytorch_post_training_quantization
  rw [hby]
  rfl

/-- Witness for C9: bypass set together with a wrong-typed mixed-precision
configuration still yields the original module. -/
theorem bypass_precedes_validation_witness :
    cfgBypassBad.debug_config.bypass = true ∧
    cfgBypassBad.is_mixed_precision_enabled = true ∧
    cfgBypassBad.mixed_precision_config.isMPQC = false ∧
    pytorch_post_training_quantization mod1 [1, 2] none cfgBypassBad tpc1 oracleOk
      = ([], Except.ok (FacadeModel.original mod1, none)) :=
  ⟨rfl, rfl, rfl,
   bypass_precedes_validation mod1 [1, 2] none cfgBypassBad tpc1 oracleOk rfl rfl rfl⟩

/-- C2: every non-bypass run that completes executes the stages in the fixed
order core runner, PTQ runner, then the similarity analyzer exactly when
requested, then the exporter; and the exporter is invoked exactly once. -/
theorem pipeline_stage_order (in_module : Module) (gen : List Nat)
    (ru : Option Nat) (cfg : CoreConfig) (tpc : TargetPlatformCapabilities)
    (oracle : AnalyzerOracle) (r : FacadeModel × Option UserInformation)
    (hby : cfg.debug_config.bypass = false)
    (hok : (pytorch_post_training_quantization in_module gen ru cfg tpc oracle).2
             = Except.ok r) :
    (pytorch_post_training_quantization in_module gen ru cfg tpc oracle).1.filterMap stageOf
      = [Stage.core, Stage.ptq]
        ++ (if cfg.debug_config.analyze_similarity then [Stage.similarity] else [])
        ++ [Stage.export]
    ∧ (pytorch_post_training_quantization in_module gen ru cfg tpc oracle).1.count
        Event.exporter = 1 := by
  by_cases hty : (cfg.is_mixed_precision_enabled
      && !cfg.mixed_precision_config.isMPQC) = true
  · unfold pytorch_post_training_quantization at hok
    rw [hby, hty] at hok
    simp at hok
  · rw [facade_nonbypass in_module gen ru cfg tpc oracle hby
      (by simpa using hty)] at hok ⊢
    rcases hc : core_runner in_module gen cfg tpc ru with ⟨ev₁, res⟩
    rw [hc] at hok
    cases res with
    | error e => simp at hok
    | ok t =>
      rcases t with ⟨tg, bw, si⟩
      have hev1 := (core_runner_events_stage in_module gen cfg tpc ru).1
      have hev2 := (core_runner_events_stage in_module gen cfg tpc ru).2
      rw [hc] at hev1 hev2
      simp only [] at hev1 hev2
      constructor
      · by_cases han : cfg.debug_config.analyze_similarity = true
        · simp [han, List.filterMap_append, hev1, analyzer_events_stageOf,
            ptq_events_stageOf, stageOf, apply_ite (List.filterMap stageOf)]
        · simp only [Bool.not_eq_true] at han
          simp [han, List.filterMap_append, hev1, ptq_events_stageOf,
            stageOf, apply_ite (List.filterMap stageOf)]
      · by_cases han : cfg.debug_config.analyze_similarity = true
        · simp [han, List.count_append, hev2, analyzer_events_count,
            ptq_events_count, List.count_cons,
            apply_ite (List.count Event.exporter)]
        · simp only [Bool.not_eq_true] at han
          simp [han, List.count_append, hev2, ptq_events_count,
            List.count_cons, apply_ite (List.count Event.exporter)]

/-- Witness for C2 at a concrete completed run requesting similarity. -/
theorem pipeline_stage_order_witness :
    cfgSim.debug_config.bypass = false ∧
    (pytorch_post_training_quantization mod1 [1, 2] none cfgSim tpc1 oracleOk).2
      = Except.ok (FacadeModel.exported quantResultModel, some ui1) ∧
    ((pytorch_post_training_quantization mod1 [1, 2] none cfgSim tpc1 oracleOk).1.filterMap
        stageOf
      = [Stage.core, Stage.ptq]
        ++ (if cfgSim.debug_config.analyze_similarity then [Stage.similarity] else [])
        ++ [Stage.export]
     ∧ (pytorch_post_training_quantization mod1 [1, 2] none cfgSim tpc1 oracleOk).1.count
         Event.exporter = 1) :=
  ⟨rfl, rfl,
   pipeline_stage_order mod1 [1, 2] none cfgSim tpc1 oracleOk
     (FacadeModel.exported quantResultModel, some ui1) rfl rfl⟩

/-- C4: in a non-bypass run requesting similarity analysis, the outcome of
the run does not depend on whether the similarity diagnostic succeeds or
fails (so a diagnostic failure never aborts the pipeline); whenever the run
completes, the exporter was still invoked; and a failing diagnostic is
logged in the trace rather than escalated. -/
theorem similarity_failure_never_aborts (in_module : Module) (gen : List Nat)
    (ru : Option Nat) (cfg : CoreConfig) (tpc : TargetPlatformCapabilities)
    (o₁ o₂ : AnalyzerOracle)
    (hby : cfg.debug_config.bypass = false)
    (han : cfg.debug_config.analyze_similarity = true) :
    (pytorch_post_training_quantization in_module gen ru cfg tpc o₁).2
      = (pytorch_post_training_quantization in_module gen ru cfg tpc o₂).2
    ∧ (∀ r, (pytorch_post_training_quantization in_module gen ru cfg tpc o₁).2
          = Except.ok r →
        Event.exporter ∈ (pytorch_post_training_quantization in_module gen ru cfg tpc o₁).1)
    ∧ (∀ msg r,
        (pytorch_post_training_quantization in_module gen ru cfg tpc
            (failingOracle msg)).2 = Except.ok r →
        Event.analyzerFailureLogged msg
          ∈ (pytorch_post_training_quantization in_module gen ru cfg tpc
              (failingOracle msg)).1) := by
  by_cases hty : (cfg.is_mixed_precision_enabled
      && !cfg.mixed_precision_config.isMPQC) = true
  · unfold pytorch_post_training_quantization
    rw [hby, hty]
    refine ⟨rfl, ?_, ?_⟩
    · intro r h
      simp at h
    · intro msg r h
      simp at h
  · have hty' : (cfg.is_mixed_precision_enabled
        && !cfg.mixed_precision_config.isMPQC) = false := by simpa using hty
    refine ⟨?_, ?_, ?_⟩
    · rw [facade_nonbypass in_module gen ru cfg tpc o₁ hby hty',
          facade_nonbypass in_module gen ru cfg tpc o₂ hby hty']
      rcases hc : core_runner in_module gen cfg tpc ru with ⟨ev₁, res⟩
      cases res with
      | error e => rfl
      | ok t => rcases t with ⟨tg, bw, si⟩; rfl
    · intro r hok
      rw [facade_nonbypass in_module gen ru cfg tpc o₁ hby hty'] at hok ⊢
      rcases hc : core_runner in_module gen cfg tpc ru with ⟨ev₁, res⟩
      rw [hc] at hok
      cases res with
      | error e => simp at hok
      | ok t =>
        rcases t with ⟨tg, bw, si⟩
        simp [List.mem_append]
    · intro msg r hok
      rw [facade_nonbypass in_module gen ru cfg tpc (failingOracle msg) hby hty']
        at hok ⊢
      rcases hc : core_runner in_module gen cfg tpc ru with ⟨ev₁, res⟩
      rw [hc] at hok
      cases res with
      | error e => simp at hok
      | ok t =>
        rcases t with ⟨tg, bw, si⟩
        simp [List.mem_append, han, analyzer_model_quantization, failingOracle]

/-- Witness for C4 at a concrete run with a failing diagnostic. -/
theorem similarity_failure_never_aborts_witness :
    cfgSim.debug_config.bypass = false ∧
    cfgSim.debug_config.analyze_similarity = true ∧
    (pytorch_post_training_quantization mod1 [1, 2] none cfgSim tpc1
        (failingOracle "diverged")).2
      = (pytorch_post_training_quantization mod1 [1, 2] none cfgSim tpc1 oracleOk).2 :=
  ⟨rfl, rfl,
   (similarity_failure_never_aborts mod1 [1, 2] none cfgSim tpc1
     (failingOracle "diverged") oracleOk rfl rfl).1⟩

/-- C5: in a mixed-precision run, a bitwidth configuration the core runner
returns has total resource cost within the supplied budget; when every
choice of candidates exceeds the budget the core runner fails with an
explicit error; and in the latter case the whole facade run fails as well —
the budget is never silently exceeded. -/
theorem mp_budget_respected_or_infeasible (in_module : Module) (gen : List Nat)
    (cfg : CoreConfig) (fqc : TargetPlatformCapabilities) (b : Nat)
    (hmp : cfg.is_mixed_precision_enabled = true) :
    (∀ tg bw si, (core_runner in_module gen cfg fqc (some b)).2
        = Except.ok (tg, bw, si) → totalCost bw ≤ b)
    ∧ ((∀ c ∈ choices fqc.candidates, b < totalCost c) →
        ∃ e, (core_runner in_module gen cfg fqc (some b)).2 = Except.error e)
    ∧ (cfg.debug_config.bypass = false →
       (cfg.is_mixed_precision_enabled && !cfg.mixed_precision_config.isMPQC) = false →
       (∀ c ∈ choices fqc.candidates, b < totalCost c) →
       ∀ oracle, ∃ e,
         (pytorch_post_training_quantization in_module gen (some b) cfg fqc oracle).2
           = Except.error e) := by
  have hcost : ∀ tg bw si, (core_runner in_module gen cfg fqc (some b)).2
      = Except.ok (tg, bw, si) → totalCost bw ≤ b := by
    intro tg bw si h
    unfold core_runner at h
    by_cases hg : gen.isEmpty
    · simp [hg] at h
    · simp only [hg, hmp, if_false, if_true, Bool.false_eq_true] at h
      cases hs : mixedPrecisionSearch fqc.candidates (some b) with
      | ok bw' =>
        rw [hs] at h
        simp at h
        rw [← h.2.1]
        exact mixedPrecisionSearch_ok_cost hs
      | error e =>
        rw [hs] at h
        simp at h
  have hfail : (∀ c ∈ choices fqc.candidates, b < totalCost c) →
      ∃ e, (core_runner in_module gen cfg fqc (some b)).2 = Except.error e := by
    intro hinf
    by_cases hg : gen.isEmpty
    · refine ⟨"empty representative dataset: statistics cannot be computed from no data", ?_⟩
      unfold core_runner
      rw [if_pos hg]
    · obtain ⟨e, he⟩ := mixedPrecisionSearch_infeasible hinf
      refine ⟨e, ?_⟩
      unfold core_runner
      simp only [hg, hmp, if_false, if_true, Bool.false_eq_true]
      rw [he]
  refine ⟨hcost, hfail, ?_⟩
  intro hby hty hinf oracle
  obtain ⟨e, he⟩ := hfail hinf
  rw [facade_nonbypass in_module gen (some b) cfg fqc oracle hby hty]
  rcases hc : core_runner in_module gen cfg fqc (some b) with ⟨ev₁, res⟩
  rw [hc] at he
  cases res with
  | error e' => simp at he; exact ⟨e', rfl⟩
  | ok t => simp at he

/-- Witness for C5 at a concrete mixed-precision run with budget 10. -/
theorem mp_budget_respected_or_infeasible_witness :
    cfgMP.is_mixed_precision_enabled = true ∧
    (∀ tg bw si, (core_runner mod1 [1] cfgMP tpc1 (some 10)).2
        = Except.ok (tg, bw, si) → totalCost bw ≤ 10) :=
  ⟨rfl, (mp_budget_respected_or_infeasible mod1 [1] cfgMP tpc1 10 rfl).1⟩

/-- C7: in a non-bypass run requesting similarity analysis, the analyzer is
handed the deep copy of the core runner's graph taken before correction and
parameter application (its weights are not quantized, its parameters are
computed) together with the fully materialized quantized graph (parameters
applied to the corrected graph, weights genuinely quantized), and the two
graphs have the same topology, so comparison points match. -/
theorem similarity_compares_float_vs_quantized (in_module : Module)
    (gen : List Nat) (ru : Option Nat) (cfg : CoreConfig)
    (tpc : TargetPlatformCapabilities) (oracle : AnalyzerOracle)
    (tg : Graph) (bw : List PrecisionCfg) (si : SchedulingInfo)
    (hby : cfg.debug_config.bypass = false)
    (hty : (cfg.is_mixed_precision_enabled
        && !cfg.mixed_precision_config.isMPQC) = false)
    (han : cfg.debug_config.analyze_similarity = true)
    (hcore : (core_runner in_module gen cfg tpc ru).2 = Except.ok (tg, bw, si)) :
    Event.analyzerCompare (deepcopy tg)
        (quantize_graph_weights (ptq_runner tg gen cfg).1)
      ∈ (pytorch_post_training_quantization in_module gen ru cfg tpc oracle).1
    ∧ (deepcopy tg).weightsQuantized = false
    ∧ (deepcopy tg).paramsComputed = true
    ∧ (quantize_graph_weights (ptq_runner tg gen cfg).1).weightsQuantized = true
    ∧ (quantize_graph_weights (ptq_runner tg gen cfg).1).paramsComputed = true
    ∧ (deepcopy tg).topology
        = (quantize_graph_weights (ptq_runner tg gen cfg).1).topology := by
  have htg := core_runner_ok_graph hcore
  refine ⟨?_, ?_, ?_, ?_, ?_, ?_⟩
  · rw [facade_nonbypass in_module gen ru cfg tpc oracle hby hty]
    rcases hc : core_runner in_module gen cfg tpc ru with ⟨ev₁, res⟩
    rw [hc] at hcore
    simp only at hcore
    cases res with
    | error e => simp at hcore
    | ok t =>
      rcases t with ⟨tg', bw', si'⟩
      simp only [Except.ok.injEq, Prod.mk.injEq] at hcore
      obtain ⟨h1, h2, h3⟩ := hcore
      subst h1
      simp [han, List.mem_append, analyzer_model_quantization]
  · rw [htg]
    rfl
  · rw [htg]
    rfl
  · rfl
  · rw [htg]
    rfl
  · rfl

/-- Witness for C7 at a concrete run requesting similarity analysis. -/
theorem similarity_compares_float_vs_quantized_witness :
    cfgSim.debug_config.bypass = false ∧
    (cfgSim.is_mixed_precision_enabled
        && !cfgSim.mixed_precision_config.isMPQC) = false ∧
    cfgSim.debug_config.analyze_similarity = true ∧
    (core_runner mod1 [1, 2] cfgSim tpc1 none).2
      = Except.ok (tgSim, bwFixed, siFixed) ∧
    (Event.analyzerCompare (deepcopy tgSim)
        (quantize_graph_weights (ptq_runner tgSim [1, 2] cfgSim).1)
      ∈ (pytorch_post_training_quantization mod1 [1, 2] none cfgSim tpc1 oracleOk).1
     ∧ (deepcopy tgSim).weightsQuantized = false
     ∧ (deepcopy tgSim).paramsComputed = true
     ∧ (quantize_graph_weights (ptq_runner tgSim [1, 2] cfgSim).1).weightsQuantized = true
     ∧ (quantize_graph_weights (ptq_runner tgSim [1, 2] cfgSim).1).paramsComputed = true
     ∧ (deepcopy tgSim).topology
         = (quantize_graph_weights (ptq_runner tgSim [1, 2] cfgSim).1).topology) :=
  ⟨rfl, rfl, rfl, rfl,
   similarity_compares_float_vs_quantized mod1 [1, 2] none cfgSim tpc1 oracleOk
     tgSim bwFixed siFixed rfl rfl rfl rfl⟩

/-- C8: in a non-bypass run that completes, the exported model carries
metadata exactly when the loaded capabilities request metadata embedding:
`hasMetadata` of the returned model equals the `add_metadata` flag. -/
theorem metadata_iff_requested (in_module : Module) (gen : List Nat)
    (ru : Option Nat) (cfg : CoreConfig) (tpc : TargetPlatformCapabilities)
    (oracle : AnalyzerOracle) (m : ExportedModel) (info : Option UserInformation)
    (hby : cfg.debug_config.bypass = false)
    (hok : (pytorch_post_training_quantization in_module gen ru cfg tpc oracle).2
             = Except.ok (FacadeModel.exported m, info)) :
    m.hasMetadata = tpc.add_metadata := by
  by_cases hty : (cfg.is_mixed_precision_enabled
      && !cfg.mixed_precision_config.isMPQC) = true
  · unfold pytorch_post_training_quantization at hok
    rw [hby, hty] at hok
    simp at hok
  · rw [facade_nonbypass in_module gen ru cfg tpc oracle hby
      (by simpa using hty)] at hok
    rcases hc : core_runner in_module gen cfg tpc ru with ⟨ev₁, res⟩
    rw [hc] at hok
    cases res with
    | error e => simp at hok
    | ok t =>
      rcases t with ⟨tg, bw, si⟩
      simp only [Except.ok.injEq, Prod.mk.injEq, FacadeModel.exported.injEq] at hok
      rw [← hok.1]
      by_cases hm : tpc.add_metadata = true
      · rw [if_pos hm, hm]
        rfl
      · simp only [Bool.not_eq_true] at hm
        rw [hm]
        simp only [Bool.false_eq_true, if_false]
        rfl

/-- Witness for C8 at a concrete run whose capabilities request metadata. -/
theorem metadata_iff_requested_witness :
    cfgPlain.debug_config.bypass = false ∧
    (pytorch_post_training_quantization mod1 [1, 2] none cfgPlain tpcMeta oracleOk).2
      = Except.ok (FacadeModel.exported quantResultModelMeta, some ui1) ∧
    quantResultModelMeta.hasMetadata = tpcMeta.add_metadata :=
  ⟨rfl, rfl,
   metadata_iff_requested mod1 [1, 2] none cfgPlain tpcMeta oracleOk
     quantResultModelMeta (some ui1) rfl rfl⟩

/-- C10: in the torch-present path, a completed run returns no user
information exactly when it was a bypass run; every completed non-bypass run
returns the exporter's (non-none) user information paired with an exported
model. -/
theorem user_info_none_iff_bypass (in_module : Module) (gen : List Nat)
    (ru : Option Nat) (cfg : CoreConfig) (tpc : TargetPlatformCapabilities)
    (oracle : AnalyzerOracle) (m : FacadeModel) (info : Option UserInformation)
    (hok : (pytorch_post_training_quantization in_module gen ru cfg tpc oracle).2
             = Except.ok (m, info)) :
    (info = none ↔ cfg.debug_config.bypass = true)
    ∧ (cfg.debug_config.bypass = false →
        ∃ em ui, m = FacadeModel.exported em ∧ info = some ui) := by
  by_cases hby : cfg.debug_config.bypass = true
  · unfold pytorch_post_training_quantization at hok
    rw [hby] at hok
    simp only [if_true, Except.ok.injEq, Prod.mk.injEq] at hok
    constructor
    · rw [← hok.2]
      simp [hby]
    · intro hf
      rw [hby] at hf
      cases hf
  · have hby' : cfg.debug_config.bypass = false := by simpa using hby
    by_cases hty : (cfg.is_mixed_precision_enabled
        && !cfg.mixed_precision_config.isMPQC) = true
    · unfold pytorch_post_training_quantization at hok
      rw [hby', hty] at hok
      simp at hok
    · rw [facade_nonbypass in_module gen ru cfg tpc oracle hby'
        (by simpa using hty)] at hok
      rcases hc : core_runner in_module gen cfg tpc ru with ⟨ev₁, res⟩
      rw [hc] at hok
      cases res with
      | error e => simp at hok
      | ok t =>
        rcases t with ⟨tg, bw, si⟩
        simp only [Except.ok.injEq, Prod.mk.injEq] at hok
        constructor
        · rw [← hok.2]
          simp [hby']
        · intro _
          exact ⟨_, _, hok.1.symm, hok.2.symm⟩

/-- Witness for C10 at a concrete completed non-bypass run. -/
theorem user_info_none_iff_bypass_witness :
    (pytorch_post_training_quantization mod1 [1, 2] none cfgPlain tpc1 oracleOk).2
      = Except.ok (FacadeModel.exported quantResultModel, some ui1) ∧
    ((some ui1 = none ↔ cfgPlain.debug_config.bypass = true)
     ∧ (cfgPlain.debug_config.bypass = false →
         ∃ em ui, FacadeModel.exported quantResultModel = FacadeModel.exported em
           ∧ some ui1 = some ui)) :=
  ⟨rfl,
   user_info_none_iff_bypass mod1 [1, 2] none cfgPlain tpc1 oracleOk
     (FacadeModel.exported quantResultModel) (some ui1) rfl⟩

end MCT
